import Mathlib

/-!
Shallow embedding of the sx1509-eh driver (src/src/lib.rs, interface.rs,
pin.rs, states.rs, error.rs) and proofs about the frozen claims.

The bus and the device are modelled explicitly: an `Interface` value bundles
the driver's own fields (the bus address, the spin mutex's occupancy) with
the environment it talks to (the device's register bytes, an oracle scripting
the success or failure of each successive bus transaction) and the list of
transactions performed so far, so that every theorem can speak about the
exact transactions an operation issues.
-/

namespace Sx1509

/-- Register addresses of the chip (`reg.rs`; that file is not under `src/`,
so only the constructor names are modelled, taken from their uses in
`interface.rs` and `lib.rs` and from the spec's register list; the numeric
addresses play no role in any claim). -/
inductive Register where
  | RegReset
  | RegClock
  | RegDirA
  | RegDirB
  | RegDataA
  | RegDataB
  | RegPullUpA
  | RegPullUpB
  | RegPullDownA
  | RegPullDownB
  | RegOpenDrainA
  | RegOpenDrainB
  | RegDebounceEnableA
  | RegDebounceEnableB
  | RegDebounceConfig
  deriving DecidableEq

/-- `BankAgnosticRegister` (`interface.rs` lines 3-11). -/
inductive BankAgnosticRegister where
  | Dir
  | Data
  | PullUp
  | PullDown
  | OpenDrain
  | DebounceEnable
  deriving DecidableEq

/-- `BankAgnosticRegister::into_register::<PIN>` (`interface.rs` lines 14-34):
bank A variant when the pin index is below 8, bank B variant otherwise. -/
def BankAgnosticRegister.into_register (self : BankAgnosticRegister) (pin : Nat) : Register :=
  if pin < 8 then
    match self with
    | .Dir => .RegDirA
    | .Data => .RegDataA
    | .PullUp => .RegPullUpA
    | .PullDown => .RegPullDownA
    | .OpenDrain => .RegOpenDrainA
    | .DebounceEnable => .RegDebounceEnableA
  else
    match self with
    | .Dir => .RegDirB
    | .Data => .RegDataB
    | .PullUp => .RegPullUpB
    | .PullDown => .RegPullDownB
    | .OpenDrain => .RegOpenDrainB
    | .DebounceEnable => .RegDebounceEnableB

/-- `DebounceTime` (`interface.rs` lines 38-57). -/
inductive DebounceTime where
  | Ms0_5
  | Ms1
  | Ms2
  | Ms4
  | Ms8
  | Ms16
  | Ms32
  | Ms64
  deriving DecidableEq

/-- The discriminant of each `DebounceTime` variant (`debounce_time as u8`). -/
def DebounceTime.toNat : DebounceTime → Nat
  | .Ms0_5 => 0b000
  | .Ms1 => 0b001
  | .Ms2 => 0b010
  | .Ms4 => 0b011
  | .Ms8 => 0b100
  | .Ms16 => 0b101
  | .Ms32 => 0b110
  | .Ms64 => 0b111

/-- `Error` (`error.rs` lines 3-8): a transport failure wrapping the bus
primitive's own error, or bus contention. -/
inductive Error (E : Type) where
  | Io (e : E)
  | BusBusy
  deriving DecidableEq

/-- One physical bus transaction as the model records it: a register write
(address byte plus data byte) or a register read (write the address byte,
read one data byte back). -/
inductive Transaction where
  | writeT (register : Register) (data : Nat)
  | readT (register : Register)
  deriving DecidableEq

/-- The `Interface` (`interface.rs` lines 59-62) together with the
environment it owns or talks to: `regs` is the device's register bytes,
`locked` whether the spin mutex is currently held by another in-flight
operation, `failures` an oracle scripting the outcome of each successive bus
transaction (indexed by `tcount`, `none` = success), and `trace` the bus
transactions performed so far, in order. -/
structure Interface (E : Type) where
  regs : Register → Nat
  address : Nat
  locked : Bool
  failures : Nat → Option E
  tcount : Nat
  trace : List Transaction

variable {E : Type}

/-- `Interface::write` (`interface.rs` lines 173-180): `try_lock` fails
immediately with `BusBusy` when the mutex is held; otherwise one write
transaction is issued, and a failing transaction surfaces as `Io`. -/
def Interface.write (self : Interface E) (register : Register) (data : Nat) :
    Except (Error E) Unit × Interface E :=
  if self.locked then (Except.error Error.BusBusy, self)
  else
    match self.failures self.tcount with
    | some e =>
        (Except.error (Error.Io e),
          { self with tcount := self.tcount + 1,
                      trace := self.trace ++ [Transaction.writeT register data] })
    | none =>
        (Except.ok (),
          { self with
              regs := fun r => if r = register then data else self.regs r,
              tcount := self.tcount + 1,
              trace := self.trace ++ [Transaction.writeT register data] })

/-- `Interface::read` (`interface.rs` lines 182-190): `try_lock` fails
immediately with `BusBusy` when the mutex is held; otherwise one
write-then-read transaction is issued, yielding the register's byte. -/
def Interface.read (self : Interface E) (register : Register) :
    Except (Error E) Nat × Interface E :=
  if self.locked then (Except.error Error.BusBusy, self)
  else
    match self.failures self.tcount with
    | some e =>
        (Except.error (Error.Io e),
          { self with tcount := self.tcount + 1,
                      trace := self.trace ++ [Transaction.readT register] })
    | none =>
        (Except.ok (self.regs register),
          { self with tcount := self.tcount + 1,
                      trace := self.trace ++ [Transaction.readT register] })

/-- `Interface::set_bit` (`interface.rs` lines 133-145): resolve the
register, read its byte, OR in the pin's bit, write the byte back. -/
def Interface.set_bit (self : Interface E) (pin : Nat) (bar : BankAgnosticRegister) :
    Except (Error E) Unit × Interface E :=
  let register := bar.into_register pin
  if pin < 8 then
    match self.read register with
    | (Except.ok existing_data, s1) => s1.write register (existing_data ||| (1 <<< pin))
    | (Except.error e, s1) => (Except.error e, s1)
  else
    match self.read register with
    | (Except.ok existing_data, s1) => s1.write register (existing_data ||| (1 <<< (pin - 8)))
    | (Except.error e, s1) => (Except.error e, s1)

/-- `Interface::unset_bit` (`interface.rs` lines 147-159): as `set_bit` but
AND with the complemented mask; the `u8` complement `!(1 << k)` is
`255 ^^^ (1 <<< k)`. -/
def Interface.unset_bit (self : Interface E) (pin : Nat) (bar : BankAgnosticRegister) :
    Except (Error E) Unit × Interface E :=
  let register := bar.into_register pin
  if pin < 8 then
    match self.read register with
    | (Except.ok existing_data, s1) =>
        s1.write register (existing_data &&& (255 ^^^ (1 <<< pin)))
    | (Except.error e, s1) => (Except.error e, s1)
  else
    match self.read register with
    | (Except.ok existing_data, s1) =>
        s1.write register (existing_data &&& (255 ^^^ (1 <<< (pin - 8))))
    | (Except.error e, s1) => (Except.error e, s1)

/-- `Interface::get_bit` (`interface.rs` lines 161-171): read the resolved
register's byte and test the pin's bit. -/
def Interface.get_bit (self : Interface E) (pin : Nat) (bar : BankAgnosticRegister) :
    Except (Error E) Bool × Interface E :=
  let register := bar.into_register pin
  if pin < 8 then
    match self.read register with
    | (Except.ok data, s1) => (Except.ok (data &&& (1 <<< pin) != 0), s1)
    | (Except.error e, s1) => (Except.error e, s1)
  else
    match self.read register with
    | (Except.ok data, s1) => (Except.ok (data &&& (1 <<< (pin - 8)) != 0), s1)
    | (Except.error e, s1) => (Except.error e, s1)

/-- `Interface::set_output` (`interface.rs` lines 72-74). -/
def Interface.set_output (self : Interface E) (pin : Nat) :
    Except (Error E) Unit × Interface E :=
  self.set_bit pin BankAgnosticRegister.Dir

/-- `Interface::set_input` (`interface.rs` lines 76-78). -/
def Interface.set_input (self : Interface E) (pin : Nat) :
    Except (Error E) Unit × Interface E :=
  self.unset_bit pin BankAgnosticRegister.Dir

/-- `Interface::set_data` (`interface.rs` lines 80-86). -/
def Interface.set_data (self : Interface E) (pin : Nat) (value : Bool) :
    Except (Error E) Unit × Interface E :=
  if value then self.set_bit pin BankAgnosticRegister.Data
  else self.unset_bit pin BankAgnosticRegister.Data

/-- `Interface::get_data` (`interface.rs` lines 88-90). -/
def Interface.get_data (self : Interface E) (pin : Nat) :
    Except (Error E) Bool × Interface E :=
  self.get_bit pin BankAgnosticRegister.Data

/-- `Interface::set_pull_up` (`interface.rs` lines 92-98). -/
def Interface.set_pull_up (self : Interface E) (pin : Nat) (value : Bool) :
    Except (Error E) Unit × Interface E :=
  if value then self.set_bit pin BankAgnosticRegister.PullUp
  else self.unset_bit pin BankAgnosticRegister.PullUp

/-- `Interface::set_pull_down` (`interface.rs` lines 100-106). -/
def Interface.set_pull_down (self : Interface E) (pin : Nat) (value : Bool) :
    Except (Error E) Unit × Interface E :=
  if value then self.set_bit pin BankAgnosticRegister.PullDown
  else self.unset_bit pin BankAgnosticRegister.PullDown

/-- `Interface::set_open_drain` (`interface.rs` lines 108-114). -/
def Interface.set_open_drain (self : Interface E) (pin : Nat) (value : Bool) :
    Except (Error E) Unit × Interface E :=
  if value then self.set_bit pin BankAgnosticRegister.OpenDrain
  else self.unset_bit pin BankAgnosticRegister.OpenDrain

/-- `Interface::set_debounce_enable` (`interface.rs` lines 116-122). -/
def Interface.set_debounce_enable (self : Interface E) (pin : Nat) (value : Bool) :
    Except (Error E) Unit × Interface E :=
  if value then self.set_bit pin BankAgnosticRegister.DebounceEnable
  else self.unset_bit pin BankAgnosticRegister.DebounceEnable

/-- `Interface::set_debounce_time` (`interface.rs` lines 124-126). -/
def Interface.set_debounce_time (self : Interface E) (debounce_time : DebounceTime) :
    Except (Error E) Unit × Interface E :=
  self.write Register.RegDebounceConfig debounce_time.toNat

/-- The runtime content every pin handle (`Pin`, `Output`, `Input` in
`pin.rs`) carries: the const pin index and the shared `&Interface`
reference, here a reference token; the direction/substate parameters are
phantom types in the source and appear in the theorems, not the data. -/
structure Handle where
  pin : Nat
  interface : Nat
  deriving DecidableEq

/-- `ModeChange` (`error.rs` lines 19-25): the error that prevented the mode
change together with the pin that failed to change mode. -/
structure ModeChange (E P : Type) where
  error : E
  pin : P
  deriving DecidableEq

/-- `Pin::into_output` (`pin.rs` lines 44-62): set direction=output, then
open-drain=false; on the first failure abort and return the error with the
original pin. -/
def Pin_into_output (self : Handle) (s : Interface E) :
    Except (ModeChange (Error E) Handle) Handle × Interface E :=
  match s.set_output self.pin with
  | (Except.ok _, s1) =>
      match s1.set_open_drain self.pin false with
      | (Except.ok _, s2) => (Except.ok { pin := self.pin, interface := self.interface }, s2)
      | (Except.error e, s2) => (Except.error { error := e, pin := self }, s2)
  | (Except.error e, s1) => (Except.error { error := e, pin := self }, s1)

/-- `Pin::into_input` (`pin.rs` lines 70-94): set direction=input, then
pull-up=false, pull-down=false, debounce-enable=false; on the first failure
abort and return the error with the original pin. -/
def Pin_into_input (self : Handle) (s : Interface E) :
    Except (ModeChange (Error E) Handle) Handle × Interface E :=
  match s.set_input self.pin with
  | (Except.ok _, s1) =>
      match s1.set_pull_up self.pin false with
      | (Except.ok _, s2) =>
          match s2.set_pull_down self.pin false with
          | (Except.ok _, s3) =>
              match s3.set_debounce_enable self.pin false with
              | (Except.ok _, s4) =>
                  (Except.ok { pin := self.pin, interface := self.interface }, s4)
              | (Except.error e, s4) => (Except.error { error := e, pin := self }, s4)
          | (Except.error e, s3) => (Except.error { error := e, pin := self }, s3)
      | (Except.error e, s2) => (Except.error { error := e, pin := self }, s2)
  | (Except.error e, s1) => (Except.error { error := e, pin := self }, s1)

/-- `Input::<S, D>::into_output` (`states.rs` lines 31-45): available from
every input substate; set direction=output, then open-drain=false. -/
def Input_into_output (self : Handle) (s : Interface E) :
    Except (ModeChange (Error E) Handle) Handle × Interface E :=
  match s.set_output self.pin with
  | (Except.ok _, s1) =>
      match s1.set_open_drain self.pin false with
      | (Except.ok _, s2) => (Except.ok { pin := self.pin, interface := self.interface }, s2)
      | (Except.error e, s2) => (Except.error { error := e, pin := self }, s2)
  | (Except.error e, s1) => (Except.error { error := e, pin := self }, s1)

/-- `Output::<S>::into_input` (`states.rs` lines 56-73): available from every
output substate; sets direction=input, then pull-up=false, and nothing
else — in particular neither pull-down nor debounce-enable is written. -/
def Output_into_input (self : Handle) (s : Interface E) :
    Except (ModeChange (Error E) Handle) Handle × Interface E :=
  match s.set_input self.pin with
  | (Except.ok _, s1) =>
      match s1.set_pull_up self.pin false with
      | (Except.ok _, s2) => (Except.ok { pin := self.pin, interface := self.interface }, s2)
      | (Except.error e, s2) => (Except.error { error := e, pin := self }, s2)
  | (Except.error e, s1) => (Except.error { error := e, pin := self }, s1)

/-- `Input::<Floating, D>::pullup` (`states.rs` lines 84-93). -/
def Floating_pullup (self : Handle) (s : Interface E) :
    Except (ModeChange (Error E) Handle) Handle × Interface E :=
  match s.set_pull_up self.pin true with
  | (Except.ok _, s1) => (Except.ok { pin := self.pin, interface := self.interface }, s1)
  | (Except.error e, s1) => (Except.error { error := e, pin := self }, s1)

/-- `Input::<Floating, D>::pulldown` (`states.rs` lines 99-108). -/
def Floating_pulldown (self : Handle) (s : Interface E) :
    Except (ModeChange (Error E) Handle) Handle × Interface E :=
  match s.set_pull_down self.pin true with
  | (Except.ok _, s1) => (Except.ok { pin := self.pin, interface := self.interface }, s1)
  | (Except.error e, s1) => (Except.error { error := e, pin := self }, s1)

/-- `Input::<PullUp, D>::floating` (`states.rs` lines 119-128). -/
def PullUp_floating (self : Handle) (s : Interface E) :
    Except (ModeChange (Error E) Handle) Handle × Interface E :=
  match s.set_pull_up self.pin false with
  | (Except.ok _, s1) => (Except.ok { pin := self.pin, interface := self.interface }, s1)
  | (Except.error e, s1) => (Except.error { error := e, pin := self }, s1)

/-- `Input::<PullUp, D>::pulldown` (`states.rs` lines 134-149): clear
pull-up, then set pull-down. -/
def PullUp_pulldown (self : Handle) (s : Interface E) :
    Except (ModeChange (Error E) Handle) Handle × Interface E :=
  match s.set_pull_up self.pin false with
  | (Except.ok _, s1) =>
      match s1.set_pull_down self.pin true with
      | (Except.ok _, s2) => (Except.ok { pin := self.pin, interface := self.interface }, s2)
      | (Except.error e, s2) => (Except.error { error := e, pin := self }, s2)
  | (Except.error e, s1) => (Except.error { error := e, pin := self }, s1)

/-- `Input::<PullDown, D>::floating` (`states.rs` lines 160-169). -/
def PullDown_floating (self : Handle) (s : Interface E) :
    Except (ModeChange (Error E) Handle) Handle × Interface E :=
  match s.set_pull_down self.pin false with
  | (Except.ok _, s1) => (Except.ok { pin := self.pin, interface := self.interface }, s1)
  | (Except.error e, s1) => (Except.error { error := e, pin := self }, s1)

/-- `Input::<PullDown, D>::pullup` (`states.rs` lines 175-190): clear
pull-down, then set pull-up. -/
def PullDown_pullup (self : Handle) (s : Interface E) :
    Except (ModeChange (Error E) Handle) Handle × Interface E :=
  match s.set_pull_down self.pin false with
  | (Except.ok _, s1) =>
      match s1.set_pull_up self.pin true with
      | (Except.ok _, s2) => (Except.ok { pin := self.pin, interface := self.interface }, s2)
      | (Except.error e, s2) => (Except.error { error := e, pin := self }, s2)
  | (Except.error e, s1) => (Except.error { error := e, pin := self }, s1)

/-- `Input::<S, DebounceOff>::debounce_on` (`states.rs` lines 201-212). -/
def Input_debounce_on (self : Handle) (s : Interface E) :
    Except (ModeChange (Error E) Handle) Handle × Interface E :=
  match s.set_debounce_enable self.pin true with
  | (Except.ok _, s1) => (Except.ok { pin := self.pin, interface := self.interface }, s1)
  | (Except.error e, s1) => (Except.error { error := e, pin := self }, s1)

/-- `Input::<S, DebounceOn>::debounce_off` (`states.rs` lines 223-234). -/
def Input_debounce_off (self : Handle) (s : Interface E) :
    Except (ModeChange (Error E) Handle) Handle × Interface E :=
  match s.set_debounce_enable self.pin false with
  | (Except.ok _, s1) => (Except.ok { pin := self.pin, interface := self.interface }, s1)
  | (Except.error e, s1) => (Except.error { error := e, pin := self }, s1)

/-- `Output::<PushPull>::open_drain` (`states.rs` lines 245-253). -/
def PushPull_open_drain (self : Handle) (s : Interface E) :
    Except (ModeChange (Error E) Handle) Handle × Interface E :=
  match s.set_open_drain self.pin true with
  | (Except.ok _, s1) => (Except.ok { pin := self.pin, interface := self.interface }, s1)
  | (Except.error e, s1) => (Except.error { error := e, pin := self }, s1)

/-- `Output::<OpenDrain>::push_pull` (`states.rs` lines 264-272). -/
def OpenDrain_push_pull (self : Handle) (s : Interface E) :
    Except (ModeChange (Error E) Handle) Handle × Interface E :=
  match s.set_open_drain self.pin false with
  | (Except.ok _, s1) => (Except.ok { pin := self.pin, interface := self.interface }, s1)
  | (Except.error e, s1) => (Except.error { error := e, pin := self }, s1)

/-- `OutputPin::set_low` for `Output` (`pin.rs` lines 102-104). -/
def Output_set_low (self : Handle) (s : Interface E) :
    Except (Error E) Unit × Interface E :=
  s.set_data self.pin false

/-- `OutputPin::set_high` for `Output` (`pin.rs` lines 106-108). -/
def Output_set_high (self : Handle) (s : Interface E) :
    Except (Error E) Unit × Interface E :=
  s.set_data self.pin true

/-- `StatefulOutputPin::is_set_high` for `Output` (`pin.rs` lines 116-118). -/
def Output_is_set_high (self : Handle) (s : Interface E) :
    Except (Error E) Bool × Interface E :=
  s.get_data self.pin

/-- `StatefulOutputPin::is_set_low` for `Output` (`pin.rs` lines 120-122):
`self.is_set_high().map(|v| !v)`. -/
def Output_is_set_low (self : Handle) (s : Interface E) :
    Except (Error E) Bool × Interface E :=
  match Output_is_set_high self s with
  | (Except.ok v, s1) => (Except.ok (!v), s1)
  | (Except.error e, s1) => (Except.error e, s1)

/-- `InputPin::is_high` for `Input` (`pin.rs` lines 130-132). -/
def Input_is_high (self : Handle) (s : Interface E) :
    Except (Error E) Bool × Interface E :=
  s.get_data self.pin

/-- `InputPin::is_low` for `Input` (`pin.rs` lines 134-136):
`self.is_high().map(|v| !v)`. -/
def Input_is_low (self : Handle) (s : Interface E) :
    Except (Error E) Bool × Interface E :=
  match Input_is_high self s with
  | (Except.ok v, s1) => (Except.ok (!v), s1)
  | (Except.error e, s1) => (Except.error e, s1)

/-- A raw `i2c.write` as `Sx1509::new` performs it (`lib.rs` lines 34-45):
the constructor owns the bus, so no mutex is involved; one write
transaction, failing as the oracle scripts. -/
def i2c_write (s : Interface E) (register : Register) (data : Nat) :
    Except E Unit × Interface E :=
  match s.failures s.tcount with
  | some e =>
      (Except.error e,
        { s with tcount := s.tcount + 1,
                 trace := s.trace ++ [Transaction.writeT register data] })
  | none =>
      (Except.ok (),
        { s with regs := fun r => if r = register then data else s.regs r,
                 tcount := s.tcount + 1,
                 trace := s.trace ++ [Transaction.writeT register data] })

/-- `Sx1509::new` (`lib.rs` lines 34-45): write 0x12 then 0x34 to the reset
register, then 0b0100_0000 to the clock register; abort at the first failing
transaction with its error; on success wrap the bus in a fresh (unlocked)
mutex. -/
def new (s : Interface E) : Except E Unit × Interface E :=
  match i2c_write s Register.RegReset 0x12 with
  | (Except.ok _, s1) =>
      match i2c_write s1 Register.RegReset 0x34 with
      | (Except.ok _, s2) =>
          match i2c_write s2 Register.RegClock 0b01000000 with
          | (Except.ok _, s3) => (Except.ok (), { s3 with locked := false })
          | (Except.error e, s3) => (Except.error e, s3)
      | (Except.error e, s2) => (Except.error e, s2)
  | (Except.error e, s1) => (Except.error e, s1)

/-- The (kind, register) projection of a transaction, used to state which
planned accesses a partial run has performed: `true` marks a write. -/
def txKey : Transaction → Bool × Register
  | .writeT r _ => (true, r)
  | .readT r => (false, r)

/-- One read-modify-write bit operation of a transition's write sequence:
`set v` on a register is `set_bit`/`unset_bit` according to `v`. -/
inductive BitOp where
  | set (bar : BankAgnosticRegister)
  | unset (bar : BankAgnosticRegister)
  deriving DecidableEq

/-- The physical register a bit operation resolves for a pin. -/
def BitOp.reg (op : BitOp) (pin : Nat) : Register :=
  match op with
  | .set bar => bar.into_register pin
  | .unset bar => bar.into_register pin

/-- The planned transaction keys of a sequence of bit operations: each
performs one read then one write of its resolved register. -/
def seqPlan (pin : Nat) : List BitOp → List (Bool × Register)
  | [] => []
  | op :: rest => (false, op.reg pin) :: (true, op.reg pin) :: seqPlan pin rest

/-- Dispatch one bit operation to the interface. -/
def runBitOp (pin : Nat) (op : BitOp) (s : Interface E) :
    Except (Error E) Unit × Interface E :=
  match op with
  | .set bar => s.set_bit pin bar
  | .unset bar => s.unset_bit pin bar

/-- Run bit operations in order, aborting at the first error: the
`?`-chained closure every transition in `pin.rs`/`states.rs` builds. -/
def runOps (pin : Nat) : List BitOp → Interface E → Except (Error E) Unit × Interface E
  | [], s => (Except.ok (), s)
  | op :: rest, s =>
      match runBitOp pin op s with
      | (Except.ok _, s1) => runOps pin rest s1
      | (Except.error e, s1) => (Except.error e, s1)

/-- Wrap a transition's closure result the way every transition does: a new
handle with the same index and interface on success, `ModeChange` with the
original handle on failure. -/
def runTrans (h : Handle) (ops : List BitOp) (s : Interface E) :
    Except (ModeChange (Error E) Handle) Handle × Interface E :=
  match runOps h.pin ops s with
  | (Except.ok _, s1) => (Except.ok { pin := h.pin, interface := h.interface }, s1)
  | (Except.error e, s1) => (Except.error { error := e, pin := h }, s1)

/-- The pin transition operations, one constructor per source method
(`pin.rs`, `states.rs`). -/
inductive TransIdx where
  | pin_into_output
  | pin_into_input
  | input_into_output
  | output_into_input
  | floating_pullup
  | floating_pulldown
  | pullup_floating
  | pullup_pulldown
  | pulldown_floating
  | pulldown_pullup
  | input_debounce_on
  | input_debounce_off
  | pushpull_open_drain
  | opendrain_push_pull
  deriving DecidableEq

/-- Dispatch a transition index to its source function. -/
def transAt (t : TransIdx) (h : Handle) (s : Interface E) :
    Except (ModeChange (Error E) Handle) Handle × Interface E :=
  match t with
  | .pin_into_output => Pin_into_output h s
  | .pin_into_input => Pin_into_input h s
  | .input_into_output => Input_into_output h s
  | .output_into_input => Output_into_input h s
  | .floating_pullup => Floating_pullup h s
  | .floating_pulldown => Floating_pulldown h s
  | .pullup_floating => PullUp_floating h s
  | .pullup_pulldown => PullUp_pulldown h s
  | .pulldown_floating => PullDown_floating h s
  | .pulldown_pullup => PullDown_pullup h s
  | .input_debounce_on => Input_debounce_on h s
  | .input_debounce_off => Input_debounce_off h s
  | .pushpull_open_drain => PushPull_open_drain h s
  | .opendrain_push_pull => OpenDrain_push_pull h s

/-- The bit-operation sequence each transition performs, read off its
source body. -/
def transOps : TransIdx → List BitOp
  | .pin_into_output => [.set .Dir, .unset .OpenDrain]
  | .pin_into_input => [.unset .Dir, .unset .PullUp, .unset .PullDown, .unset .DebounceEnable]
  | .input_into_output => [.set .Dir, .unset .OpenDrain]
  | .output_into_input => [.unset .Dir, .unset .PullUp]
  | .floating_pullup => [.set .PullUp]
  | .floating_pulldown => [.set .PullDown]
  | .pullup_floating => [.unset .PullUp]
  | .pullup_pulldown => [.unset .PullUp, .set .PullDown]
  | .pulldown_floating => [.unset .PullDown]
  | .pulldown_pullup => [.unset .PullDown, .set .PullUp]
  | .input_debounce_on => [.set .DebounceEnable]
  | .input_debounce_off => [.unset .DebounceEnable]
  | .pushpull_open_drain => [.set .OpenDrain]
  | .opendrain_push_pull => [.unset .OpenDrain]

/-- A fault-free bus environment: every register byte zero (in particular the
pull-up and pull-down bits of every pin read 0), the mutex free, every
transaction succeeding; the address is the spec scenario's 0x3E. -/
def init0 : Interface Unit :=
  { regs := fun _ => 0
    address := 0x3E
    locked := false
    failures := fun _ => none
    tcount := 0
    trace := [] }

/-- Pin index 0 of bank A, holding a reference to the one interface. -/
def pin0 : Handle := { pin := 0, interface := 0 }

/-- A bus environment whose first transaction fails and every later one
succeeds. -/
def failFirst : Interface Unit :=
  { init0 with failures := fun n => if n = 0 then some () else none }

/-- Modelled from the spec: the bank-A physical variant of each logical
register, from the spec's register list (DirectionA/B, DataA/B, PullUpA/B,
PullDownA/B, OpenDrainA/B, DebounceEnableA/B); used to compare
`into_register` against the spec's words. -/
def bankAVariant : BankAgnosticRegister → Register
  | .Dir => .RegDirA
  | .Data => .RegDataA
  | .PullUp => .RegPullUpA
  | .PullDown => .RegPullDownA
  | .OpenDrain => .RegOpenDrainA
  | .DebounceEnable => .RegDebounceEnableA

/-- Modelled from the spec: the bank-B physical variant of each logical
register, as `bankAVariant`. -/
def bankBVariant : BankAgnosticRegister → Register
  | .Dir => .RegDirB
  | .Data => .RegDataB
  | .PullUp => .RegPullUpB
  | .PullDown => .RegPullDownB
  | .OpenDrain => .RegOpenDrainB
  | .DebounceEnable => .RegDebounceEnableB

/-- A fault-free bus whose DataB register holds the prior byte 0b100, for
the pin-9 set-data-high scenario. -/
def s9 : Interface Unit :=
  { init0 with regs := fun r => if r = Register.RegDataB then 4 else 0 }

/-- A bus whose guard is currently held by another in-flight operation. -/
def sLocked : Interface Unit := { init0 with locked := true }

/-- A bus in normal operation: the guard is free and every transaction the
oracle scripts succeeds. -/
def Flawless (s : Interface E) : Prop :=
  s.locked = false ∧ ∀ n, s.failures n = none

/-- The typestate-legal transition sequence Unconfigured -> Input(Floating,
DebounceOff) -> Input(PullDown, DebounceOff) -> Output(PushPull) ->
Input(Floating, DebounceOff) -> Input(PullUp, DebounceOff), each step the
source method available for that shape, chained on success. -/
def c2run (h : Handle) (s : Interface Unit) :
    Except (ModeChange (Error Unit) Handle) Handle × Interface Unit :=
  match Pin_into_input h s with
  | (Except.ok h1, s1) =>
      match Floating_pulldown h1 s1 with
      | (Except.ok h2, s2) =>
          match Input_into_output h2 s2 with
          | (Except.ok h3, s3) =>
              match Output_into_input h3 s3 with
              | (Except.ok h4, s4) => Floating_pullup h4 s4
              | (Except.error e, s4) => (Except.error e, s4)
          | (Except.error e, s3) => (Except.error e, s3)
      | (Except.error e, s2) => (Except.error e, s2)
  | (Except.error e, s1) => (Except.error e, s1)

theorem set_output_eq (s : Interface E) (p : Nat) :
    s.set_output p = s.set_bit p BankAgnosticRegister.Dir := rfl

theorem set_input_eq (s : Interface E) (p : Nat) :
    s.set_input p = s.unset_bit p BankAgnosticRegister.Dir := rfl

theorem set_data_true (s : Interface E) (p : Nat) :
    s.set_data p true = s.set_bit p BankAgnosticRegister.Data := rfl

theorem set_data_false (s : Interface E) (p : Nat) :
    s.set_data p false = s.unset_bit p BankAgnosticRegister.Data := rfl

theorem set_pull_up_true (s : Interface E) (p : Nat) :
    s.set_pull_up p true = s.set_bit p BankAgnosticRegister.PullUp := rfl

theorem set_pull_up_false (s : Interface E) (p : Nat) :
    s.set_pull_up p false = s.unset_bit p BankAgnosticRegister.PullUp := rfl

theorem set_pull_down_true (s : Interface E) (p : Nat) :
    s.set_pull_down p true = s.set_bit p BankAgnosticRegister.PullDown := rfl

theorem set_pull_down_false (s : Interface E) (p : Nat) :
    s.set_pull_down p false = s.unset_bit p BankAgnosticRegister.PullDown := rfl

theorem set_open_drain_true (s : Interface E) (p : Nat) :
    s.set_open_drain p true = s.set_bit p BankAgnosticRegister.OpenDrain := rfl

theorem set_open_drain_false (s : Interface E) (p : Nat) :
    s.set_open_drain p false = s.unset_bit p BankAgnosticRegister.OpenDrain := rfl

theorem set_debounce_enable_true (s : Interface E) (p : Nat) :
    s.set_debounce_enable p true = s.set_bit p BankAgnosticRegister.DebounceEnable := rfl

theorem set_debounce_enable_false (s : Interface E) (p : Nat) :
    s.set_debounce_enable p false = s.unset_bit p BankAgnosticRegister.DebounceEnable := rfl

theorem read_cases (s : Interface E) (r : Register) :
    (s.locked = true ∧ s.read r = (Except.error Error.BusBusy, s)) ∨
    (s.locked = false ∧ ∃ e, s.failures s.tcount = some e ∧ s.read r =
      (Except.error (Error.Io e),
        { s with tcount := s.tcount + 1, trace := s.trace ++ [Transaction.readT r] })) ∨
    (s.locked = false ∧ s.failures s.tcount = none ∧ s.read r =
      (Except.ok (s.regs r),
        { s with tcount := s.tcount + 1, trace := s.trace ++ [Transaction.readT r] })) := by
  unfold Interface.read
  by_cases hl : s.locked
  · left
    exact ⟨hl, by simp [hl]⟩
  · cases hf : s.failures s.tcount with
    | none =>
        right; right
        exact ⟨by simpa using hl, rfl, by simp [hl, hf]⟩
    | some e =>
        right; left
        exact ⟨by simpa using hl, e, rfl, by simp [hl, hf]⟩

theorem write_cases (s : Interface E) (r : Register) (d : Nat) (hl : s.locked = false) :
    (∃ e, s.failures s.tcount = some e ∧ s.write r d =
      (Except.error (Error.Io e),
        { s with tcount := s.tcount + 1, trace := s.trace ++ [Transaction.writeT r d] })) ∨
    (s.failures s.tcount = none ∧ s.write r d =
      (Except.ok (),
        { s with regs := fun x => if x = r then d else s.regs x,
                 tcount := s.tcount + 1,
                 trace := s.trace ++ [Transaction.writeT r d] })) := by
  unfold Interface.write
  cases hf : s.failures s.tcount with
  | none => exact Or.inr ⟨rfl, by simp [hl, hf]⟩
  | some e => exact Or.inl ⟨e, rfl, by simp [hl, hf]⟩

theorem set_bit_trace (p : Nat) (bar : BankAgnosticRegister) (s : Interface E) :
    ∃ d rest, (s.set_bit p bar).2.trace = s.trace ++ d ∧
      d.map txKey ++ rest =
        [(false, bar.into_register p), (true, bar.into_register p)] ∧
      ((s.set_bit p bar).1 = Except.ok () → rest = []) := by
  unfold Interface.set_bit
  simp only []
  rcases read_cases s (bar.into_register p) with ⟨hl, hr⟩ | ⟨hl, e, hf, hr⟩ | ⟨hl, hf, hr⟩ <;>
    rw [hr]
  · exact ⟨[], _, by simp, rfl, by by_cases hp : p < 8 <;> simp [hp]⟩
  · exact ⟨[Transaction.readT (bar.into_register p)], [(true, bar.into_register p)],
      by by_cases hp : p < 8 <;> simp [hp],
      by simp [txKey],
      by by_cases hp : p < 8 <;> simp [hp]⟩
  · by_cases hp : p < 8 <;> simp only [hp, if_true, if_false, reduceIte]
    · rcases write_cases
          ({ s with tcount := s.tcount + 1, trace := s.trace ++ [Transaction.readT (bar.into_register p)] })
          (bar.into_register p) (s.regs (bar.into_register p) ||| (1 <<< p)) hl with
        ⟨e, hf1, hw⟩ | ⟨hf1, hw⟩ <;>
      · rw [hw]
        exact ⟨[Transaction.readT (bar.into_register p),
            Transaction.writeT (bar.into_register p) (s.regs (bar.into_register p) ||| (1 <<< p))],
          [], by simp, by simp [txKey], by simp⟩
    · rcases write_cases
          ({ s with tcount := s.tcount + 1, trace := s.trace ++ [Transaction.readT (bar.into_register p)] })
          (bar.into_register p) (s.regs (bar.into_register p) ||| (1 <<< (p - 8))) hl with
        ⟨e, hf1, hw⟩ | ⟨hf1, hw⟩ <;>
      · rw [hw]
        exact ⟨[Transaction.readT (bar.into_register p),
            Transaction.writeT (bar.into_register p) (s.regs (bar.into_register p) ||| (1 <<< (p - 8)))],
          [], by simp, by simp [txKey], by simp⟩

theorem unset_bit_trace (p : Nat) (bar : BankAgnosticRegister) (s : Interface E) :
    ∃ d rest, (s.unset_bit p bar).2.trace = s.trace ++ d ∧
      d.map txKey ++ rest =
        [(false, bar.into_register p), (true, bar.into_register p)] ∧
      ((s.unset_bit p bar).1 = Except.ok () → rest = []) := by
  unfold Interface.unset_bit
  simp only []
  rcases read_cases s (bar.into_register p) with ⟨hl, hr⟩ | ⟨hl, e, hf, hr⟩ | ⟨hl, hf, hr⟩ <;>
    rw [hr]
  · exact ⟨[], _, by simp, rfl, by by_cases hp : p < 8 <;> simp [hp]⟩
  · exact ⟨[Transaction.readT (bar.into_register p)], [(true, bar.into_register p)],
      by by_cases hp : p < 8 <;> simp [hp],
      by simp [txKey],
      by by_cases hp : p < 8 <;> simp [hp]⟩
  · by_cases hp : p < 8 <;> simp only [hp, if_true, if_false, reduceIte]
    · rcases write_cases
          ({ s with tcount := s.tcount + 1, trace := s.trace ++ [Transaction.readT (bar.into_register p)] })
          (bar.into_register p) (s.regs (bar.into_register p) &&& (255 ^^^ (1 <<< p))) hl with
        ⟨e, hf1, hw⟩ | ⟨hf1, hw⟩ <;>
      · rw [hw]
        exact ⟨[Transaction.readT (bar.into_register p),
            Transaction.writeT (bar.into_register p)
              (s.regs (bar.into_register p) &&& (255 ^^^ (1 <<< p)))],
          [], by simp, by simp [txKey], by simp⟩
    · rcases write_cases
          ({ s with tcount := s.tcount + 1, trace := s.trace ++ [Transaction.readT (bar.into_register p)] })
          (bar.into_register p) (s.regs (bar.into_register p) &&& (255 ^^^ (1 <<< (p - 8)))) hl with
        ⟨e, hf1, hw⟩ | ⟨hf1, hw⟩ <;>
      · rw [hw]
        exact ⟨[Transaction.readT (bar.into_register p),
            Transaction.writeT (bar.into_register p)
              (s.regs (bar.into_register p) &&& (255 ^^^ (1 <<< (p - 8))))],
          [], by simp, by simp [txKey], by simp⟩

theorem runBitOp_trace (p : Nat) (op : BitOp) (s : Interface E) :
    ∃ d rest, (runBitOp p op s).2.trace = s.trace ++ d ∧
      d.map txKey ++ rest = [(false, op.reg p), (true, op.reg p)] ∧
      ((runBitOp p op s).1 = Except.ok () → rest = []) := by
  cases op with
  | set bar => exact set_bit_trace p bar s
  | unset bar => exact unset_bit_trace p bar s

theorem runOps_trace (p : Nat) (ops : List BitOp) (s : Interface E) :
    ∃ d rest, (runOps p ops s).2.trace = s.trace ++ d ∧
      d.map txKey ++ rest = seqPlan p ops ∧
      ((runOps p ops s).1 = Except.ok () → rest = []) := by
  induction ops generalizing s with
  | nil => exact ⟨[], [], by simp [runOps], by simp [seqPlan], fun _ => rfl⟩
  | cons op rest ih =>
      obtain ⟨d1, r1, ht1, hk1, ho1⟩ := runBitOp_trace p op s
      rcases h1 : runBitOp p op s with ⟨res1, s1⟩
      rw [h1] at ht1 ho1
      have ht1a : s1.trace = s.trace ++ d1 := ht1
      cases res1 with
      | error e =>
          refine ⟨d1, r1 ++ seqPlan p rest, ?_, ?_, ?_⟩
          · simp [runOps, h1, ht1a]
          · rw [← List.append_assoc, hk1]
            simp [seqPlan]
          · simp [runOps, h1]
      | ok u =>
          cases u
          have hr1 : r1 = [] := ho1 rfl
          subst hr1
          rw [List.append_nil] at hk1
          obtain ⟨d2, r2, ht2, hk2, ho2⟩ := ih s1
          refine ⟨d1 ++ d2, r2, ?_, ?_, ?_⟩
          · simp [runOps, h1, ht2, ht1a, List.append_assoc]
          · rw [List.map_append, List.append_assoc, hk2, hk1]
            simp [seqPlan]
          · intro hok
            apply ho2
            simpa [runOps, h1] using hok

theorem runTrans_err (h : Handle) (ops : List BitOp) (s : Interface E)
    (mc : ModeChange (Error E) Handle)
    (herr : (runTrans h ops s).1 = Except.error mc) :
    mc.pin = h ∧ ∃ d rest, (runTrans h ops s).2.trace = s.trace ++ d ∧
      d.map txKey ++ rest = seqPlan h.pin ops := by
  obtain ⟨d, rest, ht, hk, _⟩ := runOps_trace h.pin ops s
  rcases hr : runOps h.pin ops s with ⟨res, s1⟩
  rw [hr] at ht
  unfold runTrans at herr ⊢
  rw [hr] at herr ⊢
  cases res with
  | ok u => simp at herr
  | error e =>
      have h2 : ({ error := e, pin := h } : ModeChange (Error E) Handle) = mc := by
        have h3 : Except.error ({ error := e, pin := h } : ModeChange (Error E) Handle) =
            Except.error mc := herr
        injection h3
      refine ⟨?_, d, rest, ht, hk⟩
      rw [← h2]

theorem Floating_pullup_eq (h : Handle) (s : Interface E) :
    Floating_pullup h s = runTrans h [BitOp.set BankAgnosticRegister.PullUp] s := by
  unfold Floating_pullup runTrans runOps runBitOp
  simp only [set_pull_up_true]
  rcases h1 : s.set_bit h.pin BankAgnosticRegister.PullUp with ⟨r1, s1⟩
  cases r1 <;> rfl

theorem Pin_into_output_eq (h : Handle) (s : Interface E) :
    Pin_into_output h s =
      runTrans h [BitOp.set BankAgnosticRegister.Dir, BitOp.unset BankAgnosticRegister.OpenDrain] s := by
  simp only [Pin_into_output, runTrans, runOps, runBitOp, set_output_eq, set_open_drain_false]
  rcases h1 : s.set_bit h.pin BankAgnosticRegister.Dir with ⟨r1, s1⟩
  cases r1 with
  | error e => rfl
  | ok u =>
      dsimp only
      rcases h2 : s1.unset_bit h.pin BankAgnosticRegister.OpenDrain with ⟨r2, s2⟩
      cases r2 <;> rfl

theorem Floating_pulldown_eq (h : Handle) (s : Interface E) :
    Floating_pulldown h s = runTrans h [BitOp.set BankAgnosticRegister.PullDown] s := by
  simp only [Floating_pulldown, runTrans, runOps, runBitOp, set_pull_down_true]
  rcases h1 : s.set_bit h.pin BankAgnosticRegister.PullDown with ⟨r1, s1⟩
  cases r1 <;> rfl

theorem PullUp_floating_eq (h : Handle) (s : Interface E) :
    PullUp_floating h s = runTrans h [BitOp.unset BankAgnosticRegister.PullUp] s := by
  simp only [PullUp_floating, runTrans, runOps, runBitOp, set_pull_up_false]
  rcases h1 : s.unset_bit h.pin BankAgnosticRegister.PullUp with ⟨r1, s1⟩
  cases r1 <;> rfl

theorem PullDown_floating_eq (h : Handle) (s : Interface E) :
    PullDown_floating h s = runTrans h [BitOp.unset BankAgnosticRegister.PullDown] s := by
  simp only [PullDown_floating, runTrans, runOps, runBitOp, set_pull_down_false]
  rcases h1 : s.unset_bit h.pin BankAgnosticRegister.PullDown with ⟨r1, s1⟩
  cases r1 <;> rfl

theorem Input_debounce_on_eq (h : Handle) (s : Interface E) :
    Input_debounce_on h s = runTrans h [BitOp.set BankAgnosticRegister.DebounceEnable] s := by
  simp only [Input_debounce_on, runTrans, runOps, runBitOp, set_debounce_enable_true]
  rcases h1 : s.set_bit h.pin BankAgnosticRegister.DebounceEnable with ⟨r1, s1⟩
  cases r1 <;> rfl

theorem Input_debounce_off_eq (h : Handle) (s : Interface E) :
    Input_debounce_off h s = runTrans h [BitOp.unset BankAgnosticRegister.DebounceEnable] s := by
  simp only [Input_debounce_off, runTrans, runOps, runBitOp, set_debounce_enable_false]
  rcases h1 : s.unset_bit h.pin BankAgnosticRegister.DebounceEnable with ⟨r1, s1⟩
  cases r1 <;> rfl

theorem PushPull_open_drain_eq (h : Handle) (s : Interface E) :
    PushPull_open_drain h s = runTrans h [BitOp.set BankAgnosticRegister.OpenDrain] s := by
  simp only [PushPull_open_drain, runTrans, runOps, runBitOp, set_open_drain_true]
  rcases h1 : s.set_bit h.pin BankAgnosticRegister.OpenDrain with ⟨r1, s1⟩
  cases r1 <;> rfl

theorem OpenDrain_push_pull_eq (h : Handle) (s : Interface E) :
    OpenDrain_push_pull h s = runTrans h [BitOp.unset BankAgnosticRegister.OpenDrain] s := by
  simp only [OpenDrain_push_pull, runTrans, runOps, runBitOp, set_open_drain_false]
  rcases h1 : s.unset_bit h.pin BankAgnosticRegister.OpenDrain with ⟨r1, s1⟩
  cases r1 <;> rfl

theorem Input_into_output_eq (h : Handle) (s : Interface E) :
    Input_into_output h s =
      runTrans h [BitOp.set BankAgnosticRegister.Dir, BitOp.unset BankAgnosticRegister.OpenDrain] s := by
  simp only [Input_into_output, runTrans, runOps, runBitOp, set_output_eq, set_open_drain_false]
  rcases h1 : s.set_bit h.pin BankAgnosticRegister.Dir with ⟨r1, s1⟩
  cases r1 with
  | error e => rfl
  | ok u =>
      dsimp only
      rcases h2 : s1.unset_bit h.pin BankAgnosticRegister.OpenDrain with ⟨r2, s2⟩
      cases r2 <;> rfl

theorem Output_into_input_eq (h : Handle) (s : Interface E) :
    Output_into_input h s =
      runTrans h [BitOp.unset BankAgnosticRegister.Dir, BitOp.unset BankAgnosticRegister.PullUp] s := by
  simp only [Output_into_input, runTrans, runOps, runBitOp, set_input_eq, set_pull_up_false]
  rcases h1 : s.unset_bit h.pin BankAgnosticRegister.Dir with ⟨r1, s1⟩
  cases r1 with
  | error e => rfl
  | ok u =>
      dsimp only
      rcases h2 : s1.unset_bit h.pin BankAgnosticRegister.PullUp with ⟨r2, s2⟩
      cases r2 <;> rfl

theorem PullUp_pulldown_eq (h : Handle) (s : Interface E) :
    PullUp_pulldown h s =
      runTrans h [BitOp.unset BankAgnosticRegister.PullUp, BitOp.set BankAgnosticRegister.PullDown] s := by
  simp only [PullUp_pulldown, runTrans, runOps, runBitOp, set_pull_up_false, set_pull_down_true]
  rcases h1 : s.unset_bit h.pin BankAgnosticRegister.PullUp with ⟨r1, s1⟩
  cases r1 with
  | error e => rfl
  | ok u =>
      dsimp only
      rcases h2 : s1.set_bit h.pin BankAgnosticRegister.PullDown with ⟨r2, s2⟩
      cases r2 <;> rfl

theorem PullDown_pullup_eq (h : Handle) (s : Interface E) :
    PullDown_pullup h s =
      runTrans h [BitOp.unset BankAgnosticRegister.PullDown, BitOp.set BankAgnosticRegister.PullUp] s := by
  simp only [PullDown_pullup, runTrans, runOps, runBitOp, set_pull_down_false, set_pull_up_true]
  rcases h1 : s.unset_bit h.pin BankAgnosticRegister.PullDown with ⟨r1, s1⟩
  cases r1 with
  | error e => rfl
  | ok u =>
      dsimp only
      rcases h2 : s1.set_bit h.pin BankAgnosticRegister.PullUp with ⟨r2, s2⟩
      cases r2 <;> rfl

theorem Pin_into_input_eq (h : Handle) (s : Interface E) :
    Pin_into_input h s =
      runTrans h [BitOp.unset BankAgnosticRegister.Dir, BitOp.unset BankAgnosticRegister.PullUp,
        BitOp.unset BankAgnosticRegister.PullDown, BitOp.unset BankAgnosticRegister.DebounceEnable] s := by
  simp only [Pin_into_input, runTrans, runOps, runBitOp, set_input_eq, set_pull_up_false,
    set_pull_down_false, set_debounce_enable_false]
  rcases h1 : s.unset_bit h.pin BankAgnosticRegister.Dir with ⟨r1, s1⟩
  cases r1 with
  | error e => rfl
  | ok u =>
      dsimp only
      rcases h2 : s1.unset_bit h.pin BankAgnosticRegister.PullUp with ⟨r2, s2⟩
      cases r2 with
      | error e => rfl
      | ok u2 =>
          dsimp only
          rcases h3 : s2.unset_bit h.pin BankAgnosticRegister.PullDown with ⟨r3, s3⟩
          cases r3 with
          | error e => rfl
          | ok u3 =>
              dsimp only
              rcases h4 : s3.unset_bit h.pin BankAgnosticRegister.DebounceEnable with ⟨r4, s4⟩
              cases r4 <;> rfl

/-- Claim C3: for every pin transition operation, when a constituent write
fails the remaining accesses of the sequence are skipped (the transactions
performed form an initial segment of the transition's planned read/write
sequence) and the operation returns a mode-change failure value carrying
the error together with the original, unmodified pre-transition handle:
the same pin index and the same bus-interface reference, usable for a
subsequent transition attempt. -/
theorem c3_failed_transition_keeps_handle (t : TransIdx) (h : Handle)
    (s : Interface E) (mc : ModeChange (Error E) Handle)
    (herr : (transAt t h s).1 = Except.error mc) :
    mc.pin = h ∧ mc.pin.pin = h.pin ∧ mc.pin.interface = h.interface ∧
    ∃ d rest, (transAt t h s).2.trace = s.trace ++ d ∧
      d.map txKey ++ rest = seqPlan h.pin (transOps t) := by
  have key : ∀ ops, (runTrans h ops s).1 = Except.error mc →
      mc.pin = h ∧ mc.pin.pin = h.pin ∧ mc.pin.interface = h.interface ∧
      ∃ d rest, (runTrans h ops s).2.trace = s.trace ++ d ∧
        d.map txKey ++ rest = seqPlan h.pin ops := by
    intro ops he
    obtain ⟨hp, hrest⟩ := runTrans_err h ops s mc he
    exact ⟨hp, by rw [hp], by rw [hp], hrest⟩
  cases t <;> simp only [transAt, transOps] at herr ⊢ <;>
    first
      | (rw [Pin_into_output_eq] at herr ⊢; exact key _ herr)
      | (rw [Pin_into_input_eq] at herr ⊢; exact key _ herr)
      | (rw [Input_into_output_eq] at herr ⊢; exact key _ herr)
      | (rw [Output_into_input_eq] at herr ⊢; exact key _ herr)
      | (rw [Floating_pullup_eq] at herr ⊢; exact key _ herr)
      | (rw [Floating_pulldown_eq] at herr ⊢; exact key _ herr)
      | (rw [PullUp_floating_eq] at herr ⊢; exact key _ herr)
      | (rw [PullUp_pulldown_eq] at herr ⊢; exact key _ herr)
      | (rw [PullDown_floating_eq] at herr ⊢; exact key _ herr)
      | (rw [PullDown_pullup_eq] at herr ⊢; exact key _ herr)
      | (rw [Input_debounce_on_eq] at herr ⊢; exact key _ herr)
      | (rw [Input_debounce_off_eq] at herr ⊢; exact key _ herr)
      | (rw [PushPull_open_drain_eq] at herr ⊢; exact key _ herr)
      | (rw [OpenDrain_push_pull_eq] at herr ⊢; exact key _ herr)

/-- Witness for C3 at a concrete input: the first write of the
Unconfigured-to-Output transition of pin 0 fails, every hypothesis is
discharged by evaluation, and the handle embedded in the failure value can
then attempt Unconfigured-to-Input successfully (the spec's lossless-failure
scenario). -/
theorem c3_witness :
    (({ error := Error.Io (), pin := pin0 } : ModeChange (Error Unit) Handle).pin = pin0 ∧
      ({ error := Error.Io (), pin := pin0 } : ModeChange (Error Unit) Handle).pin.pin = pin0.pin ∧
      ({ error := Error.Io (), pin := pin0 } : ModeChange (Error Unit) Handle).pin.interface =
        pin0.interface ∧
      ∃ d rest,
        (transAt TransIdx.pin_into_output pin0 failFirst).2.trace = failFirst.trace ++ d ∧
        d.map txKey ++ rest = seqPlan pin0.pin (transOps TransIdx.pin_into_output)) ∧
    (Pin_into_input pin0 (transAt TransIdx.pin_into_output pin0 failFirst).2).1 =
      Except.ok pin0 :=
  ⟨c3_failed_transition_keeps_handle TransIdx.pin_into_output pin0 failFirst
      { error := Error.Io (), pin := pin0 } rfl,
    rfl⟩

/-- Claim C1 evaluation: at pin 0 on a fault-free zeroed bus, the
Output-to-Input transition (`Output::into_input`, states.rs) performs only a
direction access and a pull-up access, while the Unconfigured-to-Input
transition (`Pin::into_input`, pin.rs) performs direction, pull-up,
pull-down and debounce-enable accesses: the write sequences are not the
same, the former never touches the pull-down or debounce-enable register. -/
theorem c1_output_into_input_differs :
    (Output_into_input pin0 init0).1 = Except.ok pin0 ∧
    (Output_into_input pin0 init0).2.trace =
      [Transaction.readT Register.RegDirA, Transaction.writeT Register.RegDirA 0,
       Transaction.readT Register.RegPullUpA, Transaction.writeT Register.RegPullUpA 0] ∧
    (Pin_into_input pin0 init0).1 = Except.ok pin0 ∧
    (Pin_into_input pin0 init0).2.trace =
      [Transaction.readT Register.RegDirA, Transaction.writeT Register.RegDirA 0,
       Transaction.readT Register.RegPullUpA, Transaction.writeT Register.RegPullUpA 0,
       Transaction.readT Register.RegPullDownA, Transaction.writeT Register.RegPullDownA 0,
       Transaction.readT Register.RegDebounceEnableA,
       Transaction.writeT Register.RegDebounceEnableA 0] :=
  ⟨rfl, rfl, rfl, rfl⟩

/-- Claim C2 evaluation: the successful, typestate-legal sequence
Unconfigured -> Floating -> PullDown -> Output -> Floating -> PullUp at
pin 0, starting from all-zero registers on a fault-free bus, ends with both
the pull-up bit and the pull-down bit of pin 0 set (the Output-to-Input step
returns a Floating-typed handle without clearing the pull-down bit),
refuting the mutual-exclusion invariant. -/
theorem c2_both_pull_bits_set :
    (c2run pin0 init0).1 = Except.ok pin0 ∧
    ((c2run pin0 init0).2.regs Register.RegPullUpA).testBit 0 = true ∧
    ((c2run pin0 init0).2.regs Register.RegPullDownA).testBit 0 = true := by
  refine ⟨rfl, ?_, ?_⟩ <;> decide

theorem and_one_shift_bne (x k : Nat) : (x &&& (1 <<< k) != 0) = x.testBit k := by
  rw [Nat.shiftLeft_eq, one_mul, Nat.and_two_pow]
  cases hb : x.testBit k <;> simp [hb, Nat.ne_of_gt (Nat.two_pow_pos k)]

theorem set_bit_ok (p : Nat) (bar : BankAgnosticRegister) (s : Interface E)
    (hl : s.locked = false) (h0 : s.failures s.tcount = none)
    (h1 : s.failures (s.tcount + 1) = none) :
    s.set_bit p bar =
      (Except.ok (),
        { s with
            regs := fun r => if r = bar.into_register p then
                s.regs (bar.into_register p) ||| (1 <<< (if p < 8 then p else p - 8))
              else s.regs r,
            tcount := s.tcount + 2,
            trace := s.trace ++
              [Transaction.readT (bar.into_register p),
               Transaction.writeT (bar.into_register p)
                 (s.regs (bar.into_register p) ||| (1 <<< (if p < 8 then p else p - 8)))] }) := by
  unfold Interface.set_bit Interface.read Interface.write
  by_cases hp : p < 8 <;> simp [hp, hl, h0, h1]

theorem unset_bit_ok (p : Nat) (bar : BankAgnosticRegister) (s : Interface E)
    (hl : s.locked = false) (h0 : s.failures s.tcount = none)
    (h1 : s.failures (s.tcount + 1) = none) :
    s.unset_bit p bar =
      (Except.ok (),
        { s with
            regs := fun r => if r = bar.into_register p then
                s.regs (bar.into_register p) &&& (255 ^^^ (1 <<< (if p < 8 then p else p - 8)))
              else s.regs r,
            tcount := s.tcount + 2,
            trace := s.trace ++
              [Transaction.readT (bar.into_register p),
               Transaction.writeT (bar.into_register p)
                 (s.regs (bar.into_register p) &&&
                   (255 ^^^ (1 <<< (if p < 8 then p else p - 8))))] }) := by
  unfold Interface.unset_bit Interface.read Interface.write
  by_cases hp : p < 8 <;> simp [hp, hl, h0, h1]

theorem get_bit_ok (p : Nat) (bar : BankAgnosticRegister) (s : Interface E)
    (hl : s.locked = false) (h0 : s.failures s.tcount = none) :
    s.get_bit p bar =
      (Except.ok ((s.regs (bar.into_register p)).testBit (if p < 8 then p else p - 8)),
        { s with tcount := s.tcount + 1,
                 trace := s.trace ++ [Transaction.readT (bar.into_register p)] }) := by
  unfold Interface.get_bit Interface.read
  by_cases hp : p < 8 <;> simp [hp, hl, h0, and_one_shift_bne]

theorem testBit_255 (i : Nat) : Nat.testBit 255 i = decide (i < 8) := by
  rw [show (255 : Nat) = 2 ^ 8 - 1 from rfl, Nat.testBit_two_pow_sub_one]

theorem if_shift_mod (p : Nat) (hp : p < 16) : (if p < 8 then p else p - 8) = p % 8 := by
  by_cases hp8 : p < 8
  · simp [hp8, Nat.mod_eq_of_lt hp8]
  · simp only [hp8, if_false]
    omega

/-- Claim C4: for every pin index below 16 and every prior register byte, a
bit-level set (respectively clear) reads the resolved register byte and
writes back the old byte with only bit pin mod 8 set (respectively
cleared), all other bits unchanged; the written byte is also what the
register then holds. -/
theorem c4_bit_level_rmw (p : Nat) (bar : BankAgnosticRegister) (s : Interface E)
    (hp : p < 16) (hl : s.locked = false) (h0 : s.failures s.tcount = none)
    (h1 : s.failures (s.tcount + 1) = none)
    (hb : s.regs (bar.into_register p) < 256) :
    (∃ v, (s.set_bit p bar).1 = Except.ok () ∧
      (s.set_bit p bar).2.trace = s.trace ++
        [Transaction.readT (bar.into_register p),
         Transaction.writeT (bar.into_register p) v] ∧
      (s.set_bit p bar).2.regs (bar.into_register p) = v ∧
      v.testBit (p % 8) = true ∧
      (∀ i, i ≠ p % 8 → v.testBit i = (s.regs (bar.into_register p)).testBit i)) ∧
    (∃ w, (s.unset_bit p bar).1 = Except.ok () ∧
      (s.unset_bit p bar).2.trace = s.trace ++
        [Transaction.readT (bar.into_register p),
         Transaction.writeT (bar.into_register p) w] ∧
      (s.unset_bit p bar).2.regs (bar.into_register p) = w ∧
      w.testBit (p % 8) = false ∧
      (∀ i, i ≠ p % 8 → w.testBit i = (s.regs (bar.into_register p)).testBit i)) := by
  have hm8 : p % 8 < 8 := Nat.mod_lt _ (by omega)
  have h255 : (255 : Nat) = 2 ^ 8 - 1 := rfl
  constructor
  · have hs := set_bit_ok p bar s hl h0 h1
    rw [if_shift_mod p hp] at hs
    refine ⟨s.regs (bar.into_register p) ||| (1 <<< (p % 8)), ?_, ?_, ?_, ?_, ?_⟩
    · rw [hs]
    · rw [hs]
    · rw [hs]
      simp
    · rw [Nat.shiftLeft_eq, one_mul]
      simp [Nat.testBit_lor, Nat.testBit_two_pow_self]
    · intro i hi
      rw [Nat.shiftLeft_eq, one_mul]
      simp [Nat.testBit_lor, Nat.testBit_two_pow_of_ne (Ne.symm hi)]
  · have hs := unset_bit_ok p bar s hl h0 h1
    rw [if_shift_mod p hp] at hs
    refine ⟨s.regs (bar.into_register p) &&& (255 ^^^ (1 <<< (p % 8))), ?_, ?_, ?_, ?_, ?_⟩
    · rw [hs]
    · rw [hs]
    · rw [hs]
      simp
    · rw [Nat.shiftLeft_eq, one_mul]
      simp [Nat.testBit_land, Nat.testBit_xor, testBit_255,
        Nat.testBit_two_pow_self, hm8]
    · intro i hi
      rw [Nat.shiftLeft_eq, one_mul]
      by_cases hi8 : i < 8
      · simp [Nat.testBit_land, Nat.testBit_xor, testBit_255, hi8,
          Nat.testBit_two_pow_of_ne (Ne.symm hi)]
      · have hle : (256 : Nat) ≤ 2 ^ i := by
          calc (256 : Nat) = 2 ^ 8 := rfl
          _ ≤ 2 ^ i := Nat.pow_le_pow_right (by omega) (by omega)
        rw [Nat.testBit_lt_two_pow (lt_of_lt_of_le hb hle)]
        simp [Nat.testBit_land, Nat.testBit_xor, testBit_255, hi8,
          Nat.testBit_two_pow_of_ne (Ne.symm hi),
          Nat.testBit_lt_two_pow (lt_of_lt_of_le hb hle)]

/-- Witness for C4: pin index 9 (bank B, bit 1), prior DataB byte 0b100; a
set on the Data register writes DataB with bit 1 set and all other bits
unchanged from their prior value. -/
theorem c4_witness :
    ∃ v, (s9.set_bit 9 BankAgnosticRegister.Data).1 = Except.ok () ∧
      (s9.set_bit 9 BankAgnosticRegister.Data).2.trace = s9.trace ++
        [Transaction.readT Register.RegDataB, Transaction.writeT Register.RegDataB v] ∧
      (s9.set_bit 9 BankAgnosticRegister.Data).2.regs Register.RegDataB = v ∧
      v.testBit 1 = true ∧
      (∀ i, i ≠ 1 → v.testBit i = (s9.regs Register.RegDataB).testBit i) :=
  (c4_bit_level_rmw 9 BankAgnosticRegister.Data s9 (by decide) rfl rfl rfl (by decide)).1

/-- Claim C6: for every pin index 0-15 and every logical register, the
resolved physical register is the bank-A variant iff the index is below 8
and the bank-B variant otherwise, and the bit position used within that
register is the index mod 8 (here read off `get_bit`). -/
theorem c6_bank_and_bit (bar : BankAgnosticRegister) (p : Nat) (s : Interface E)
    (hp : p < 16) (hl : s.locked = false) (h0 : s.failures s.tcount = none) :
    bar.into_register p = (if p < 8 then bankAVariant bar else bankBVariant bar) ∧
    (s.get_bit p bar).1 =
      Except.ok ((s.regs (bar.into_register p)).testBit (p % 8)) := by
  constructor
  · by_cases hp8 : p < 8 <;> cases bar <;>
      simp [BankAgnosticRegister.into_register, bankAVariant, bankBVariant, hp8]
  · rw [get_bit_ok p bar s hl h0, if_shift_mod p hp]

/-- Witness for C6 at pin 9 on the Data register: bank B is resolved and
bit 9 mod 8 is tested. -/
theorem c6_witness :
    BankAgnosticRegister.Data.into_register 9 =
      (if (9 : Nat) < 8 then bankAVariant BankAgnosticRegister.Data
       else bankBVariant BankAgnosticRegister.Data) ∧
    (s9.get_bit 9 BankAgnosticRegister.Data).1 =
      Except.ok ((s9.regs (BankAgnosticRegister.Data.into_register 9)).testBit (9 % 8)) :=
  c6_bank_and_bit BankAgnosticRegister.Data 9 s9 (by decide) rfl rfl

/-- Claim C7: while the bus guard is held by another in-flight operation,
every public interface operation returns the bus-busy error immediately and
leaves the whole state (in particular the transaction trace) unchanged:
zero bus transactions are performed. -/
theorem c7_bus_busy_immediate (p : Nat) (v : Bool) (dt : DebounceTime) (s : Interface E)
    (hl : s.locked = true) :
    s.set_output p = (Except.error Error.BusBusy, s) ∧
    s.set_input p = (Except.error Error.BusBusy, s) ∧
    s.set_data p v = (Except.error Error.BusBusy, s) ∧
    s.get_data p = (Except.error Error.BusBusy, s) ∧
    s.set_pull_up p v = (Except.error Error.BusBusy, s) ∧
    s.set_pull_down p v = (Except.error Error.BusBusy, s) ∧
    s.set_open_drain p v = (Except.error Error.BusBusy, s) ∧
    s.set_debounce_enable p v = (Except.error Error.BusBusy, s) ∧
    s.set_debounce_time dt = (Except.error Error.BusBusy, s) := by
  have hsb : ∀ bar, s.set_bit p bar = (Except.error Error.BusBusy, s) := by
    intro bar
    unfold Interface.set_bit Interface.read
    by_cases hp : p < 8 <;> simp [hp, hl]
  have hub : ∀ bar, s.unset_bit p bar = (Except.error Error.BusBusy, s) := by
    intro bar
    unfold Interface.unset_bit Interface.read
    by_cases hp : p < 8 <;> simp [hp, hl]
  have hgb : ∀ bar, s.get_bit p bar = (Except.error Error.BusBusy, s) := by
    intro bar
    unfold Interface.get_bit Interface.read
    by_cases hp : p < 8 <;> simp [hp, hl]
  refine ⟨hsb _, hub _, ?_, hgb _, ?_, ?_, ?_, ?_, ?_⟩
  · cases v <;> simp [Interface.set_data, hsb, hub]
  · cases v <;> simp [Interface.set_pull_up, hsb, hub]
  · cases v <;> simp [Interface.set_pull_down, hsb, hub]
  · cases v <;> simp [Interface.set_open_drain, hsb, hub]
  · cases v <;> simp [Interface.set_debounce_enable, hsb, hub]
  · simp [Interface.set_debounce_time, Interface.write, hl]

/-- Witness for C7: with the guard held, a direction write on pin 3 fails
with the contention error and the state is untouched. -/
theorem c7_witness :
    sLocked.set_output 3 = (Except.error Error.BusBusy, sLocked) :=
  (c7_bus_busy_immediate 3 true DebounceTime.Ms0_5 sLocked rfl).1

theorem set_bit_flawless (p : Nat) (bar : BankAgnosticRegister) (s : Interface E)
    (hs : Flawless s) :
    (s.set_bit p bar).1 = Except.ok () ∧ Flawless (s.set_bit p bar).2 ∧
    (s.set_bit p bar).2.regs = fun r => if r = bar.into_register p then
        s.regs (bar.into_register p) ||| (1 <<< (if p < 8 then p else p - 8))
      else s.regs r := by
  obtain ⟨hl, hf⟩ := hs
  rw [set_bit_ok p bar s hl (hf _) (hf _)]
  exact ⟨rfl, ⟨hl, hf⟩, rfl⟩

theorem unset_bit_flawless (p : Nat) (bar : BankAgnosticRegister) (s : Interface E)
    (hs : Flawless s) :
    (s.unset_bit p bar).1 = Except.ok () ∧ Flawless (s.unset_bit p bar).2 ∧
    (s.unset_bit p bar).2.regs = fun r => if r = bar.into_register p then
        s.regs (bar.into_register p) &&& (255 ^^^ (1 <<< (if p < 8 then p else p - 8)))
      else s.regs r := by
  obtain ⟨hl, hf⟩ := hs
  rw [unset_bit_ok p bar s hl (hf _) (hf _)]
  exact ⟨rfl, ⟨hl, hf⟩, rfl⟩

theorem get_bit_flawless (p : Nat) (bar : BankAgnosticRegister) (s : Interface E)
    (hs : Flawless s) :
    (s.get_bit p bar).1 =
      Except.ok ((s.regs (bar.into_register p)).testBit (if p < 8 then p else p - 8)) ∧
    Flawless (s.get_bit p bar).2 ∧ (s.get_bit p bar).2.regs = s.regs ∧
    (s.get_bit p bar).2.trace = s.trace ++ [Transaction.readT (bar.into_register p)] := by
  obtain ⟨hl, hf⟩ := hs
  rw [get_bit_ok p bar s hl (hf _)]
  exact ⟨rfl, ⟨hl, hf⟩, rfl, rfl⟩

theorem runOps_flawless (p : Nat) (ops : List BitOp) (s : Interface E) (hs : Flawless s) :
    (runOps p ops s).1 = Except.ok () ∧ Flawless (runOps p ops s).2 := by
  induction ops generalizing s with
  | nil => exact ⟨rfl, hs⟩
  | cons op rest ih =>
      rcases e1 : runBitOp p op s with ⟨r1, s1⟩
      have h1 : r1 = Except.ok () ∧ Flawless s1 := by
        cases op with
        | set bar =>
            obtain ⟨ha, hb, -⟩ := set_bit_flawless p bar s hs
            rw [show runBitOp p (BitOp.set bar) s = s.set_bit p bar from rfl] at e1
            rw [e1] at ha hb
            exact ⟨ha, hb⟩
        | unset bar =>
            obtain ⟨ha, hb, -⟩ := unset_bit_flawless p bar s hs
            rw [show runBitOp p (BitOp.unset bar) s = s.unset_bit p bar from rfl] at e1
            rw [e1] at ha hb
            exact ⟨ha, hb⟩
      obtain ⟨hr1, hs1⟩ := h1
      subst hr1
      simpa [runOps, e1] using ih s1 hs1

theorem runTrans_flawless (h : Handle) (ops : List BitOp) (s : Interface E)
    (hs : Flawless s) :
    runTrans h ops s =
      (Except.ok { pin := h.pin, interface := h.interface }, (runOps h.pin ops s).2) ∧
    Flawless (runOps h.pin ops s).2 := by
  obtain ⟨hok, hfl⟩ := runOps_flawless h.pin ops s hs
  rcases e1 : runOps h.pin ops s with ⟨r1, s1⟩
  rw [e1] at hok hfl
  have hr1 : r1 = Except.ok () := hok
  subst hr1
  exact ⟨by simp [runTrans, e1], hfl⟩

theorem testBit_or_shift_self (x k : Nat) : (x ||| (1 <<< k)).testBit k = true := by
  rw [Nat.shiftLeft_eq, one_mul]
  simp [Nat.testBit_lor, Nat.testBit_two_pow_self]

theorem testBit_and_mask_self (x k : Nat) (hk : k < 8) :
    (x &&& (255 ^^^ (1 <<< k))).testBit k = false := by
  rw [Nat.shiftLeft_eq, one_mul]
  simp [Nat.testBit_land, Nat.testBit_xor, testBit_255, hk, Nat.testBit_two_pow_self]

/-- Claim C8: for every pin index 0-15 and every boolean v, configuring the
pin as an output, then driving it with set-high (v = true) or set-low
(v = false), then reading back with is-set-high returns v, absent any
intervening operation on the same register. -/
theorem c8_output_roundtrip (h : Handle) (v : Bool) (s : Interface E)
    (hp : h.pin < 16) (hs : Flawless s) :
    ∃ s1 s2,
      Pin_into_output h s = (Except.ok { pin := h.pin, interface := h.interface }, s1) ∧
      (if v then Output_set_high { pin := h.pin, interface := h.interface } s1
       else Output_set_low { pin := h.pin, interface := h.interface } s1) =
        (Except.ok (), s2) ∧
      (Output_is_set_high { pin := h.pin, interface := h.interface } s2).1 = Except.ok v := by
  obtain ⟨e1, hfl1⟩ := runTrans_flawless h
    [BitOp.set BankAgnosticRegister.Dir, BitOp.unset BankAgnosticRegister.OpenDrain] s hs
  rw [← Pin_into_output_eq] at e1
  have hk8 : (if h.pin < 8 then h.pin else h.pin - 8) < 8 := by
    split <;> omega
  cases v with
  | true =>
      obtain ⟨ha, hfl2, hregs⟩ := set_bit_flawless h.pin BankAgnosticRegister.Data
        (runOps h.pin [BitOp.set BankAgnosticRegister.Dir,
          BitOp.unset BankAgnosticRegister.OpenDrain] s).2 hfl1
      rcases e2 : (runOps h.pin [BitOp.set BankAgnosticRegister.Dir,
          BitOp.unset BankAgnosticRegister.OpenDrain] s).2.set_bit h.pin
          BankAgnosticRegister.Data with ⟨r2, s2⟩
      rw [e2] at ha hfl2 hregs
      have hr2 : r2 = Except.ok () := ha
      subst hr2
      refine ⟨_, s2, e1, e2, ?_⟩
      obtain ⟨hg, -, -, -⟩ := get_bit_flawless h.pin BankAgnosticRegister.Data s2 hfl2
      show (s2.get_bit h.pin BankAgnosticRegister.Data).1 = Except.ok true
      rw [hg, hregs]
      simp [testBit_or_shift_self]
  | false =>
      obtain ⟨ha, hfl2, hregs⟩ := unset_bit_flawless h.pin BankAgnosticRegister.Data
        (runOps h.pin [BitOp.set BankAgnosticRegister.Dir,
          BitOp.unset BankAgnosticRegister.OpenDrain] s).2 hfl1
      rcases e2 : (runOps h.pin [BitOp.set BankAgnosticRegister.Dir,
          BitOp.unset BankAgnosticRegister.OpenDrain] s).2.unset_bit h.pin
          BankAgnosticRegister.Data with ⟨r2, s2⟩
      rw [e2] at ha hfl2 hregs
      have hr2 : r2 = Except.ok () := ha
      subst hr2
      refine ⟨_, s2, e1, e2, ?_⟩
      obtain ⟨hg, -, -, -⟩ := get_bit_flawless h.pin BankAgnosticRegister.Data s2 hfl2
      show (s2.get_bit h.pin BankAgnosticRegister.Data).1 = Except.ok false
      rw [hg, hregs]
      simp [testBit_and_mask_self _ _ hk8]

/-- Witness for C8: pin 0 on the zeroed fault-free bus, driving high and
reading back true. -/
theorem c8_witness :
    ∃ s1 s2,
      Pin_into_output pin0 init0 =
        (Except.ok { pin := pin0.pin, interface := pin0.interface }, s1) ∧
      (if true then Output_set_high { pin := pin0.pin, interface := pin0.interface } s1
       else Output_set_low { pin := pin0.pin, interface := pin0.interface } s1) =
        (Except.ok (), s2) ∧
      (Output_is_set_high { pin := pin0.pin, interface := pin0.interface } s2).1 =
        Except.ok true :=
  c8_output_roundtrip pin0 true init0 (by decide) ⟨rfl, fun _ => rfl⟩

/-- Claim C9: every public interface operation performs exactly one physical
bus transaction per primitive call: each read-modify-write setter makes one
read primitive call and one write primitive call and its trace grows by
exactly those two transactions; `get_data` makes one read call and its
trace grows by exactly that one transaction; `set_debounce_time` makes one
write call and its trace grows by exactly that one transaction. -/
theorem c9_one_transaction_per_primitive (p : Nat) (v : Bool) (dt : DebounceTime)
    (s : Interface E) (hl : s.locked = false) (h0 : s.failures s.tcount = none)
    (h1 : s.failures (s.tcount + 1) = none) :
    (∃ a, (s.set_output p).2.trace = s.trace ++
      [Transaction.readT (BankAgnosticRegister.Dir.into_register p),
       Transaction.writeT (BankAgnosticRegister.Dir.into_register p) a]) ∧
    (∃ a, (s.set_input p).2.trace = s.trace ++
      [Transaction.readT (BankAgnosticRegister.Dir.into_register p),
       Transaction.writeT (BankAgnosticRegister.Dir.into_register p) a]) ∧
    (∃ a, (s.set_data p v).2.trace = s.trace ++
      [Transaction.readT (BankAgnosticRegister.Data.into_register p),
       Transaction.writeT (BankAgnosticRegister.Data.into_register p) a]) ∧
    (s.get_data p).2.trace = s.trace ++
      [Transaction.readT (BankAgnosticRegister.Data.into_register p)] ∧
    (∃ a, (s.set_pull_up p v).2.trace = s.trace ++
      [Transaction.readT (BankAgnosticRegister.PullUp.into_register p),
       Transaction.writeT (BankAgnosticRegister.PullUp.into_register p) a]) ∧
    (∃ a, (s.set_pull_down p v).2.trace = s.trace ++
      [Transaction.readT (BankAgnosticRegister.PullDown.into_register p),
       Transaction.writeT (BankAgnosticRegister.PullDown.into_register p) a]) ∧
    (∃ a, (s.set_open_drain p v).2.trace = s.trace ++
      [Transaction.readT (BankAgnosticRegister.OpenDrain.into_register p),
       Transaction.writeT (BankAgnosticRegister.OpenDrain.into_register p) a]) ∧
    (∃ a, (s.set_debounce_enable p v).2.trace = s.trace ++
      [Transaction.readT (BankAgnosticRegister.DebounceEnable.into_register p),
       Transaction.writeT (BankAgnosticRegister.DebounceEnable.into_register p) a]) ∧
    (s.set_debounce_time dt).2.trace = s.trace ++
      [Transaction.writeT Register.RegDebounceConfig dt.toNat] := by
  have hset : ∀ bar, (s.set_bit p bar).2.trace = s.trace ++
      [Transaction.readT (bar.into_register p),
       Transaction.writeT (bar.into_register p)
         (s.regs (bar.into_register p) ||| (1 <<< (if p < 8 then p else p - 8)))] := by
    intro bar
    rw [set_bit_ok p bar s hl h0 h1]
  have huns : ∀ bar, (s.unset_bit p bar).2.trace = s.trace ++
      [Transaction.readT (bar.into_register p),
       Transaction.writeT (bar.into_register p)
         (s.regs (bar.into_register p) &&& (255 ^^^ (1 <<< (if p < 8 then p else p - 8))))] := by
    intro bar
    rw [unset_bit_ok p bar s hl h0 h1]
  refine ⟨⟨_, hset _⟩, ⟨_, huns _⟩, ?_, ?_, ?_, ?_, ?_, ?_, ?_⟩
  · cases v
    · exact ⟨_, huns _⟩
    · exact ⟨_, hset _⟩
  · rw [show s.get_data p = s.get_bit p BankAgnosticRegister.Data from rfl,
      get_bit_ok p BankAgnosticRegister.Data s hl h0]
  · cases v
    · exact ⟨_, huns _⟩
    · exact ⟨_, hset _⟩
  · cases v
    · exact ⟨_, huns _⟩
    · exact ⟨_, hset _⟩
  · cases v
    · exact ⟨_, huns _⟩
    · exact ⟨_, hset _⟩
  · cases v
    · exact ⟨_, huns _⟩
    · exact ⟨_, hset _⟩
  · unfold Interface.set_debounce_time Interface.write
    simp [hl, h0]

/-- Witness for C9: a direction write on pin 5 of the zeroed fault-free bus
issues exactly its read transaction and its write transaction. -/
theorem c9_witness :
    ∃ a, (init0.set_output 5).2.trace = init0.trace ++
      [Transaction.readT (BankAgnosticRegister.Dir.into_register 5),
       Transaction.writeT (BankAgnosticRegister.Dir.into_register 5) a] :=
  (c9_one_transaction_per_primitive 5 true DebounceTime.Ms0_5 init0 rfl rfl rfl).1

/-- Claim C10: the read capability operations (`get_data`, `is_high`,
`is_low`, `is_set_high`, `is_set_low`) each issue exactly one read
transaction, never write, and leave every register byte unchanged; is_low
and is_set_low return the boolean negation of the value is_high and
is_set_high read. -/
theorem c10_reads_are_pure (h : Handle) (s : Interface E)
    (hl : s.locked = false) (h0 : s.failures s.tcount = none) :
    ∃ b : Bool,
      (s.get_data h.pin).1 = Except.ok b ∧
      (Input_is_high h s).1 = Except.ok b ∧
      (Input_is_low h s).1 = Except.ok (!b) ∧
      (Output_is_set_high h s).1 = Except.ok b ∧
      (Output_is_set_low h s).1 = Except.ok (!b) ∧
      (s.get_data h.pin).2.trace = s.trace ++
        [Transaction.readT (BankAgnosticRegister.Data.into_register h.pin)] ∧
      (Input_is_high h s).2.trace = s.trace ++
        [Transaction.readT (BankAgnosticRegister.Data.into_register h.pin)] ∧
      (Input_is_low h s).2.trace = s.trace ++
        [Transaction.readT (BankAgnosticRegister.Data.into_register h.pin)] ∧
      (Output_is_set_high h s).2.trace = s.trace ++
        [Transaction.readT (BankAgnosticRegister.Data.into_register h.pin)] ∧
      (Output_is_set_low h s).2.trace = s.trace ++
        [Transaction.readT (BankAgnosticRegister.Data.into_register h.pin)] ∧
      (∀ r, (s.get_data h.pin).2.regs r = s.regs r) ∧
      (∀ r, (Input_is_high h s).2.regs r = s.regs r) ∧
      (∀ r, (Input_is_low h s).2.regs r = s.regs r) ∧
      (∀ r, (Output_is_set_high h s).2.regs r = s.regs r) ∧
      (∀ r, (Output_is_set_low h s).2.regs r = s.regs r) := by
  have hg := get_bit_ok h.pin BankAgnosticRegister.Data s hl h0
  refine ⟨(s.regs (BankAgnosticRegister.Data.into_register h.pin)).testBit
      (if h.pin < 8 then h.pin else h.pin - 8),
    ?_, ?_, ?_, ?_, ?_, ?_, ?_, ?_, ?_, ?_, ?_, ?_, ?_, ?_, ?_⟩ <;>
    simp [Interface.get_data, Input_is_high, Input_is_low, Output_is_set_high,
      Output_is_set_low, hg]

/-- Witness for C10: pin 0 on the zeroed fault-free bus. -/
theorem c10_witness :
    ∃ b : Bool,
      (init0.get_data pin0.pin).1 = Except.ok b ∧
      (Input_is_high pin0 init0).1 = Except.ok b ∧
      (Input_is_low pin0 init0).1 = Except.ok (!b) ∧
      (Output_is_set_high pin0 init0).1 = Except.ok b ∧
      (Output_is_set_low pin0 init0).1 = Except.ok (!b) ∧
      (init0.get_data pin0.pin).2.trace = init0.trace ++
        [Transaction.readT (BankAgnosticRegister.Data.into_register pin0.pin)] ∧
      (Input_is_high pin0 init0).2.trace = init0.trace ++
        [Transaction.readT (BankAgnosticRegister.Data.into_register pin0.pin)] ∧
      (Input_is_low pin0 init0).2.trace = init0.trace ++
        [Transaction.readT (BankAgnosticRegister.Data.into_register pin0.pin)] ∧
      (Output_is_set_high pin0 init0).2.trace = init0.trace ++
        [Transaction.readT (BankAgnosticRegister.Data.into_register pin0.pin)] ∧
      (Output_is_set_low pin0 init0).2.trace = init0.trace ++
        [Transaction.readT (BankAgnosticRegister.Data.into_register pin0.pin)] ∧
      (∀ r, (init0.get_data pin0.pin).2.regs r = init0.regs r) ∧
      (∀ r, (Input_is_high pin0 init0).2.regs r = init0.regs r) ∧
      (∀ r, (Input_is_low pin0 init0).2.regs r = init0.regs r) ∧
      (∀ r, (Output_is_set_high pin0 init0).2.regs r = init0.regs r) ∧
      (∀ r, (Output_is_set_low pin0 init0).2.regs r = init0.regs r) :=
  c10_reads_are_pure pin0 init0 rfl rfl

/-- Claim C5: device construction issues, in order, reset 0x12, reset 0x34,
clock 0b0100_0000, and returns a device value iff all three transactions
succeed; the transactions performed are always an initial segment of that
plan, and on failure the returned error is the first failing transaction's
error. -/
theorem c5_construction (s : Interface E) :
    ((∃ u, (new s).1 = Except.ok u) ↔
      (s.failures s.tcount = none ∧ s.failures (s.tcount + 1) = none ∧
       s.failures (s.tcount + 2) = none)) ∧
    ((new s).1 = Except.ok () →
      (new s).2.trace = s.trace ++
        [Transaction.writeT Register.RegReset 0x12,
         Transaction.writeT Register.RegReset 0x34,
         Transaction.writeT Register.RegClock 0b01000000]) ∧
    (∃ d rest, (new s).2.trace = s.trace ++ d ∧
      d ++ rest = [Transaction.writeT Register.RegReset 0x12,
        Transaction.writeT Register.RegReset 0x34,
        Transaction.writeT Register.RegClock 0b01000000]) ∧
    (∀ e, (new s).1 = Except.error e →
      (s.failures s.tcount = some e ∨
        (s.failures s.tcount = none ∧ s.failures (s.tcount + 1) = some e) ∨
        (s.failures s.tcount = none ∧ s.failures (s.tcount + 1) = none ∧
         s.failures (s.tcount + 2) = some e))) := by
  cases hf0 : s.failures s.tcount with
  | some e0 =>
      refine ⟨?_, ?_, ?_, ?_⟩
      · simp [new, i2c_write, hf0]
      · simp [new, i2c_write, hf0]
      · exact ⟨[Transaction.writeT Register.RegReset 0x12], _,
          by simp [new, i2c_write, hf0], rfl⟩
      · intro e he
        left
        simp [new, i2c_write, hf0] at he
        rw [he]
  | none =>
      cases hf1 : s.failures (s.tcount + 1) with
      | some e1 =>
          refine ⟨?_, ?_, ?_, ?_⟩
          · simp [new, i2c_write, hf0, hf1]
          · simp [new, i2c_write, hf0, hf1]
          · exact ⟨[Transaction.writeT Register.RegReset 0x12,
              Transaction.writeT Register.RegReset 0x34], _,
              by simp [new, i2c_write, hf0, hf1], rfl⟩
          · intro e he
            right; left
            simp [new, i2c_write, hf0, hf1] at he
            exact ⟨rfl, by rw [he]⟩
      | none =>
          cases hf2 : s.failures (s.tcount + 2) with
          | some e2 =>
              refine ⟨?_, ?_, ?_, ?_⟩
              · simp [new, i2c_write, hf0, hf1, hf2]
              · simp [new, i2c_write, hf0, hf1, hf2]
              · exact ⟨[Transaction.writeT Register.RegReset 0x12,
                  Transaction.writeT Register.RegReset 0x34,
                  Transaction.writeT Register.RegClock 0b01000000], [],
                  by simp [new, i2c_write, hf0, hf1, hf2], rfl⟩
              · intro e he
                right; right
                simp [new, i2c_write, hf0, hf1, hf2] at he
                exact ⟨rfl, rfl, by rw [he]⟩
          | none =>
              refine ⟨?_, ?_, ?_, ?_⟩
              · simp [new, i2c_write, hf0, hf1, hf2]
              · intro _
                simp [new, i2c_write, hf0, hf1, hf2]
              · exact ⟨[Transaction.writeT Register.RegReset 0x12,
                  Transaction.writeT Register.RegReset 0x34,
                  Transaction.writeT Register.RegClock 0b01000000], [],
                  by simp [new, i2c_write, hf0, hf1, hf2], rfl⟩
              · intro e he
                simp [new, i2c_write, hf0, hf1, hf2] at he

end Sx1509
